import Mathlib

/-!
Shallow embedding of the khunpai-paytrack-assistant payment-slip pipeline.

The slip-verification pipeline lives in `src/unnamed/part_004`
(`handleImage`, `handleSlipImage`, `findPendingBillForUser`, `markAsPaid`),
the slip extractor's deterministic tail in the `parseSlipImage` part of
`src/test-db.js`, and the bill-creation endpoint in `src/index.js`
(`app.post("/api/bill")`).  SQL tables become lists of rows, queries become
list traversals with the same filters and ordering, and JavaScript truthiness
checks are made explicit.  Amounts are modelled as exact rationals.
-/

namespace PayTrack

/-! ## Data model: the tables the imageService pipeline reads and writes -/

/-- A row of the `bills` table as the pipeline sees it: `created_at` is a
logical timestamp (larger = created later). -/
structure Bill where
  id : Nat
  group_id : String
  title : String
  created_at : Nat
deriving DecidableEq

/-- A row of the `bill_participants` table: one payer's obligation within a
bill (`amount_due`, `paid`), keyed to `group_members` by `member_id`. -/
structure BillParticipant where
  id : Nat
  bill_id : Nat
  member_id : Nat
  amount_due : ℚ
  paid : Bool
deriving DecidableEq

/-- A row of the `group_members` table. -/
structure GroupMember where
  id : Nat
  group_id : String
  user_id : String
deriving DecidableEq

/-- The persistent store the pipeline touches. -/
structure DB where
  bills : List Bill
  participants : List BillParticipant
  members : List GroupMember
deriving DecidableEq

/-- One row of the SELECT in `findPendingBillForUser`
(src/unnamed/part_004 lines 130-142). -/
structure PendingBill where
  participant_id : Nat
  amount_due : ℚ
  bill_title : String
  bill_id : Nat
deriving DecidableEq

/-- The rows the resolver's SELECT matches before ORDER BY / LIMIT: the join
`bill_participants ⋈ bills ⋈ group_members` filtered by
`b.group_id = $1 AND gm.user_id = $2 AND bp.paid = false`, paired with the
bill's `created_at` (primary keys `bills.id` and `group_members.id` are
unique, so the joins are `find?`). -/
def pendingRows (db : DB) (groupId userId : String) : List (PendingBill × Nat) :=
  db.participants.filterMap fun bp =>
    match db.bills.find? (fun b => b.id == bp.bill_id),
          db.members.find? (fun gm => gm.id == bp.member_id) with
    | some b, some gm =>
        if b.group_id == groupId && gm.user_id == userId && bp.paid == false then
          some (⟨bp.id, bp.amount_due, b.title, b.id⟩, b.created_at)
        else none
    | _, _ => none

/-- `ORDER BY b.created_at DESC LIMIT 1`: the row with the greatest
`created_at` (the first such row when timestamps tie). -/
def maxRow (r : PendingBill × Nat) : List (PendingBill × Nat) → PendingBill × Nat
  | [] => r
  | x :: xs => maxRow (if x.2 > r.2 then x else r) xs

/-- `findPendingBillForUser` (src/unnamed/part_004 lines 130-142):
`result.rows[0] || null` of the ordered, limited SELECT. -/
def findPendingBillForUser (db : DB) (groupId userId : String) : Option PendingBill :=
  match pendingRows db groupId userId with
  | [] => none
  | r :: rs => some (maxRow r rs).1

/-- `markAsPaid` (src/unnamed/part_004 lines 145-150):
`UPDATE bill_participants SET paid = true WHERE id = $1`. -/
def markAsPaid (db : DB) (participantId : Nat) : DB :=
  { db with
      participants := db.participants.map fun bp =>
        if bp.id == participantId then { bp with paid := true } else bp }

/-! ## The slip extractor's deterministic tail (parseSlipImage in src/test-db.js) -/

/-- A JSON value, as `JSON.parse` can produce it. -/
inductive JsonVal where
  | null : JsonVal
  | bool : Bool → JsonVal
  | num : ℚ → JsonVal
  | str : String → JsonVal
  | arr : List JsonVal → JsonVal
  | obj : List (String × JsonVal) → JsonVal

/-- JavaScript truthiness of a JSON value (NaN is not representable here). -/
def jsTruthy : JsonVal → Bool
  | .null => false
  | .bool b => b
  | .num q =>q != 0
  | .str s => s != ""
  | .arr _ => true
  | .obj _ => true

/-- JavaScript property access `parsed.key` on a parsed JSON value:
`none` stands for `undefined`.  Access on `null` throws instead and is
handled in `parseSlipImage` itself. -/
def jsGet (v : JsonVal) (key : String) : Option JsonVal :=
  match v with
  | .obj kvs => (kvs.find? (fun p => p.1 == key)).map (·.2)
  | _ => none

/-- The `x || null` coercion applied to each non-amount field: a falsy or
absent value becomes null. -/
def coerceField (v : Option JsonVal) : Option JsonVal :=
  match v with
  | some w => if jsTruthy w then some w else none
  | none => none

/-- The amount coercion: `typeof parsed.amount === "number" ? parsed.amount
: null`. -/
def coerceAmount (v : Option JsonVal) : Option ℚ :=
  match v with
  | some (.num q) => some q
  | _ => none

/-- Whether the parsed value's `amount` property is absent or non-numeric. -/
def amountFieldNonNumeric (v : JsonVal) : Bool :=
  match jsGet v "amount" with
  | some (.num _) => false
  | _ => true

/-- The record `parseSlipImage` resolves with (src/test-db.js): the eight
data fields plus the error channel. -/
structure SlipInfo where
  bank_name : Option JsonVal
  amount : Option ℚ
  transaction_date : Option JsonVal
  transaction_time : Option JsonVal
  sender : Option JsonVal
  receiver : Option JsonVal
  reference_id : Option JsonVal
  channel : Option JsonVal
  error : Option String

/-- The all-null record of the catch branch, carrying the caught message. -/
def errRecord (errMessage : String) : SlipInfo :=
  { bank_name := none, amount := none, transaction_date := none,
    transaction_time := none, sender := none, receiver := none,
    reference_id := none, channel := none, error := some errMessage }

/-- The deterministic tail of `parseSlipImage` (src/test-db.js): given the
outcome of `JSON.parse` on the cleaned backend text (`none` = the parse
threw) it builds the slip record.  A parse result of JSON `null` makes the
property accesses throw a TypeError, which the same catch turns into the
error record; every other parsed value is accepted with per-field coercion
and `error = null`. -/
def parseSlipImage (parseResult : Option JsonVal) (errMessage : String) : SlipInfo :=
  match parseResult with
  | none => errRecord errMessage
  | some .null => errRecord errMessage
  | some parsed =>
      { bank_name := coerceField (jsGet parsed "bank_name"),
        amount := coerceAmount (jsGet parsed "amount"),
        transaction_date := coerceField (jsGet parsed "transaction_date"),
        transaction_time := coerceField (jsGet parsed "transaction_time"),
        sender := coerceField (jsGet parsed "sender"),
        receiver := coerceField (jsGet parsed "receiver"),
        reference_id := coerceField (jsGet parsed "reference_id"),
        channel := coerceField (jsGet parsed "channel"),
        error := none }

/-- The backtick character. -/
def btChar : Char := Char.ofNat 96

/-- The characters of the pattern matched by the first cleanup regex
(three backticks then the word json). -/
def fenceJsonPat : List Char := [btChar, btChar, btChar, 'j', 's', 'o', 'n']

/-- The characters of the pattern matched by the second cleanup regex
(three backticks). -/
def fencePat : List Char := [btChar, btChar, btChar]

/-- Global replacement of `pat` plus an optional following newline by
nothing, scanning left to right; fuel bounds the recursion and the input's
length always suffices. -/
def stripPat (pat : List Char) : Nat → List Char → List Char
  | 0, cs => cs
  | _ + 1, [] => []
  | fuel + 1, c :: cs =>
      if pat.isPrefixOf (c :: cs) then
        match (c :: cs).drop pat.length with
        | '\n' :: rest => stripPat pat fuel rest
        | rest => stripPat pat fuel rest
      else c :: stripPat pat fuel cs

/-- Leading whitespace removed from a character list. -/
def dropWhitespace : List Char → List Char
  | [] => []
  | c :: cs => if c.isWhitespace then dropWhitespace cs else c :: cs

/-- The trim() of JavaScript strings: whitespace removed from both ends. -/
def trimChars (cs : List Char) : List Char :=
  (dropWhitespace (dropWhitespace cs).reverse).reverse

/-- The cleanup in `parseSlipImage` (src/test-db.js lines 107-110): drop
markdown code fences, then trim. -/
def cleanedText (s : String) : String :=
  let a := stripPat fenceJsonPat s.length s.data
  let b := stripPat fencePat a.length a
  String.mk (trimChars b)

/-! ## The pipeline orchestrator (handleImage / handleSlipImage, src/unnamed/part_004) -/

/-- The user-facing replies the image pipeline can send. -/
inductive Reply where
  | noQr : Reply
  | processFailed : Reply
  | extractionFailed : Reply
  | amountMissing : Reply
  | noPendingBill : Reply
  | mismatch : ℚ → ℚ → String → Reply
  | confirmed : ℚ → String → Reply
deriving DecidableEq

/-- The text (or flex altText) of each reply, verbatim from
src/unnamed/part_004. -/
def replyText : Reply → String
  | .noQr => "❌ No QR code detected in this image. Please send a payment slip with a QR code."
  | .processFailed => "❌ Failed to process image. Please try again."
  | .extractionFailed => "❌ Failed to read payment slip. Please try again."
  | .amountMissing => "❌ Could not detect payment amount from the slip."
  | .noPendingBill => "❌ No pending bill found for you in this group."
  | .mismatch _ _ _ => "Payment Amount Mismatch"
  | .confirmed _ _ => "Payment Confirmed!"

/-- JavaScript truthiness of the slip record's error field
(`if (slipInfo.error)`). -/
def strTruthy : Option String → Bool
  | none => false
  | some s => s != ""

/-- `handleSlipImage` (src/unnamed/part_004 lines 71-127) given the already
extracted slip record: the error check, the `!slipInfo.amount` truthiness
check (so an amount of 0 counts as missing), obligation resolution, the 5%
tolerance comparison, and the conditional `markAsPaid`. -/
def handleSlipImage (db : DB) (groupId userId : String) (slip : SlipInfo) :
    Reply × DB :=
  if strTruthy slip.error then (.extractionFailed, db)
  else
    match slip.amount with
    | none => (.amountMissing, db)
    | some amt =>
        if amt == 0 then (.amountMissing, db)
        else
          match findPendingBillForUser db groupId userId with
          | none => (.noPendingBill, db)
          | some pendingBill =>
              let tolerance := pendingBill.amount_due * 0.05
              let diff := |amt - pendingBill.amount_due|
              if diff > tolerance then
                (.mismatch amt pendingBill.amount_due pendingBill.bill_title, db)
              else
                (.confirmed amt pendingBill.bill_title,
                 markAsPaid db pendingBill.participant_id)

/-- `handleImage` (src/unnamed/part_004 lines 11-68).  `hasGroupId` is the
`!groupId` guard; `imageDecodeFails` says whether fetching or rasterising the
image throws (the awaited steps inside the try, answered by the catch);
`qrFound` is the `jsQR` outcome; `slip` is the extraction result.  Returns
the list of replies sent and the resulting store. -/
def handleImage (hasGroupId imageDecodeFails qrFound : Bool) (db : DB)
    (groupId userId : String) (slip : SlipInfo) : List Reply × DB :=
  if !hasGroupId then ([], db)
  else if imageDecodeFails then ([.processFailed], db)
  else if !qrFound then ([.noQr], db)
  else
    let r := handleSlipImage db groupId userId slip
    ([r.1], r.2)

/-! ## The operations that can touch `bill_participants` in this pipeline -/

/-- One store-touching operation reachable from the pipeline: an inbound
image event, a bare conditional mark-paid, or an atomic
create-bill-with-participants write (the persistence contract behind the
bill endpoint, which only appends a bill row and fresh obligation rows). -/
inductive Step where
  | image : Bool → Bool → Bool → String → String → SlipInfo → Step
  | mark : Nat → Step
  | insertBill : Bill → List BillParticipant → Step

/-- Apply one operation to the store. -/
def applyStep (db : DB) : Step → DB
  | .image hg df qf g u s => (handleImage hg df qf db g u s).2
  | .mark pid => markAsPaid db pid
  | .insertBill b rows =>
      { db with bills := db.bills ++ [b], participants := db.participants ++ rows }

/-- Obligation rows survive a store transition with identity, bill, payer and
amount intact, and a paid row stays paid. -/
def paidStable (db db' : DB) : Prop :=
  ∀ bp ∈ db.participants, ∃ bp' ∈ db'.participants,
    bp'.id = bp.id ∧ bp'.bill_id = bp.bill_id ∧ bp'.member_id = bp.member_id ∧
    bp'.amount_due = bp.amount_due ∧ (bp.paid = true → bp'.paid = true)

/-! ## The bill-creation endpoint (src/index.js, POST /api/bill) -/

namespace BillApi

/-- A row of the `group_members` table in the bill endpoint's schema. -/
structure ApiMember where
  group_id : String
  user_id : String
deriving DecidableEq

/-- A row of the `bills` table as the endpoint inserts it. -/
structure ApiBill where
  bill_id : Nat
  group_id : String
  title : String
  pay_type : String
  total_pay_amount : ℚ
deriving DecidableEq

/-- A row of the `bill_participants` table as the endpoint inserts it. -/
structure ApiParticipant where
  bill_id : Nat
  user_id : String
  pay_amount : ℚ
deriving DecidableEq

/-- The store the endpoint touches. -/
structure ApiDB where
  bills : List ApiBill
  participants : List ApiParticipant
  members : List ApiMember
deriving DecidableEq

/-- The endpoint's possible responses. -/
inductive BillResp where
  | badRequest : String → BillResp
  | serverError : BillResp
  | ok : Nat → Nat → ℚ → BillResp
deriving DecidableEq

/-- The request body.  An absent `groupId`, `title` or `payType` is modelled
as the falsy `""` and an absent amount as the falsy 0, matching the
truthiness test `!groupId || !title || !payType || !amount`. -/
structure BillReq where
  groupId : String
  title : String
  payType : String
  amount : ℚ
  memberIds : List String
deriving DecidableEq

/-- The fresh bill id `RETURNING bill_id` hands back. -/
def nextBillId (db : ApiDB) : Nat :=
  db.bills.foldl (fun m b => max m b.bill_id) 0 + 1

/-- The per-person due amount (src/index.js lines 133-136), computed once. -/
def perPersonAmount (req : BillReq) : ℚ :=
  if req.payType == "equal" then req.amount / (req.memberIds.length : ℚ)
  else req.amount

/-- The store after the committed transaction: the bill row plus one
obligation row per selected member, all sharing the one computed per-person
amount. -/
def billWithParticipants (db : ApiDB) (req : BillReq) : ApiDB :=
  { db with
      bills := db.bills ++
        [⟨nextBillId db, req.groupId, req.title, req.payType, req.amount⟩],
      participants := db.participants ++
        req.memberIds.map fun uid => ⟨nextBillId db, uid, perPersonAmount req⟩ }

/-- `app.post("/api/bill")` (src/index.js lines 67-183): validation, the
member check, and the BEGIN/COMMIT/ROLLBACK transaction.  `billInsertFails`
and `participantInsertFails i` model the store throwing on the bill insert
or on the i-th participant insert; any throw lands in the catch, which rolls
the transaction back, so the pre-request store is returned unchanged. -/
def createBill (db : ApiDB) (req : BillReq) (billInsertFails : Bool)
    (participantInsertFails : Nat → Bool) : BillResp × ApiDB :=
  if req.groupId == "" || req.title == "" || req.payType == "" || req.amount == 0 then
    (.badRequest "Missing required fields: groupId, title, payType, amount", db)
  else if req.memberIds.isEmpty then
    (.badRequest "At least one member must be selected", db)
  else if req.amount ≤ 0 then
    (.badRequest "Amount must be a positive number", db)
  else if !(req.payType == "equal" || req.payType == "each") then
    (.badRequest "Invalid pay type", db)
  else
    let matching := db.members.filter fun gm =>
      gm.group_id == req.groupId && req.memberIds.contains gm.user_id
    if matching.length ≠ req.memberIds.length then
      (.badRequest "One or more selected members do not exist in this group", db)
    else if billInsertFails then (.serverError, db)
    else if (List.range req.memberIds.length).any participantInsertFails then
      (.serverError, db)
    else
      (.ok (nextBillId db) req.memberIds.length (perPersonAmount req),
       billWithParticipants db req)

end BillApi

/-! ## Concrete stores and slips used by witnesses and counterexamples -/

/-- A store with two bills for group g: the older one (created_at 1) holds
payer u's unpaid obligation of 100, the newer one (created_at 2) holds the
same payer's obligation of 200, already paid. -/
def twoBillDb : DB :=
  { bills := [⟨1, "g", "old bill", 1⟩, ⟨2, "g", "new bill", 2⟩],
    participants := [⟨1, 1, 1, 100, false⟩, ⟨2, 2, 1, 200, true⟩],
    members := [⟨1, "g", "u"⟩] }

/-- A store whose single obligation for payer u is already paid. -/
def paidDb : DB :=
  { bills := [⟨1, "g", "dinner", 1⟩],
    participants := [⟨1, 1, 1, 300, true⟩],
    members := [⟨1, "g", "u"⟩] }

/-- A slip record extracted with amount 300 and no error. -/
def slip300 : SlipInfo :=
  { bank_name := none, amount := some 300, transaction_date := none,
    transaction_time := none, sender := none, receiver := none,
    reference_id := none, channel := none, error := none }

/-- A slip record extracted with amount 100 and no error. -/
def slip100 : SlipInfo :=
  { bank_name := none, amount := some 100, transaction_date := none,
    transaction_time := none, sender := none, receiver := none,
    reference_id := none, channel := none, error := none }

/-- A store with one unpaid obligation of 300 for payer u in group g. -/
def pendingDb : DB :=
  { bills := [⟨1, "g", "dinner", 1⟩],
    participants := [⟨1, 1, 1, 300, false⟩],
    members := [⟨1, "g", "u"⟩] }

/-- A slip record extracted with amount 295 and no error. -/
def slip295 : SlipInfo :=
  { bank_name := none, amount := some 295, transaction_date := none,
    transaction_time := none, sender := none, receiver := none,
    reference_id := none, channel := none, error := none }

/-- A slip record extracted with amount exactly 0 and no error. -/
def slip0 : SlipInfo :=
  { bank_name := none, amount := some 0, transaction_date := none,
    transaction_time := none, sender := none, receiver := none,
    reference_id := none, channel := none, error := none }

/-- A parsed backend output whose amount field is a string. -/
def textAmountJson : JsonVal := .obj [("amount", .str "N/A")]

/-- A JSON-parseable backend output that is far from the eight-key shape. -/
def wrongShapeJson : JsonVal := .obj [("foo", .num 1)]

/-- The spec's output contract, stated from the spec's words (§4.2): exactly
one JSON object with the fixed key set bank_name, amount, transaction_date,
transaction_time, sender, receiver, reference_id, channel, the amount
numeric or null and every other field a string or null. -/
def specExactEightKeyShape (v : JsonVal) : Bool :=
  match v with
  | .obj kvs =>
      (kvs.map Prod.fst
          == ["bank_name", "amount", "transaction_date", "transaction_time",
              "sender", "receiver", "reference_id", "channel"])
        && kvs.all fun p =>
            match p.1, p.2 with
            | "amount", .num _ => true
            | "amount", .null => true
            | "amount", _ => false
            | _, .str _ => true
            | _, .null => true
            | _, _ => false
  | _ => false

/-- A backend output wrapped in a markdown json code fence around an empty
object, built character by character (backtick backtick backtick json,
newline, braces, newline, backtick backtick backtick). -/
def fencedEmptyObj : String :=
  String.mk (fenceJsonPat ++ '\n' :: '\x7b' :: '\x7d' :: '\n' :: fencePat)

open BillApi

/-- A two-member group for the bill endpoint. -/
def apiDb : ApiDB :=
  { bills := [], participants := [],
    members := [⟨"g", "u1"⟩, ⟨"g", "u2"⟩] }

/-- An equal-split request for 100 over the two members. -/
def reqEqual : BillReq :=
  { groupId := "g", title := "trip", payType := "equal", amount := 100,
    memberIds := ["u1", "u2"] }

/-- On the branch where an obligation was resolved, `handleSlipImage` is the
tolerance comparison: mismatch outside 5% of the due amount, otherwise a
confirmation plus the `markAsPaid` write. -/
theorem handleSlipImage_found (db : DB) (groupId userId : String) (slip : SlipInfo)
    (pb : PendingBill) (a : ℚ)
    (herr : strTruthy slip.error = false) (hamt : slip.amount = some a)
    (ha : (a == 0) = false)
    (hfind : findPendingBillForUser db groupId userId = some pb) :
    handleSlipImage db groupId userId slip =
      if |a - pb.amount_due| > pb.amount_due * 0.05 then
        (.mismatch a pb.amount_due pb.bill_title, db)
      else
        (.confirmed a pb.bill_title, markAsPaid db pb.participant_id) := by
  unfold handleSlipImage
  rw [herr, hamt, hfind]
  simp only [Bool.false_eq_true, if_false, ha]

/-- C1: for every resolved obligation with due amount d > 0 and extracted
amount a, the reconciliation step confirms iff |a − d| ≤ 0.05·d; the
boundary a = 1.05·d confirms, and any amount strictly outside the tolerance
yields a mismatch reply carrying both amounts and the bill title. -/
theorem C1_toleranceMatch (db : DB) (groupId userId : String) (slip : SlipInfo)
    (pb : PendingBill) (a d : ℚ) (hd : 0 < d)
    (herr : slip.error = none) (hamt : slip.amount = some a) (ha : a ≠ 0)
    (hfind : findPendingBillForUser db groupId userId = some pb)
    (hdue : pb.amount_due = d) :
    ((handleSlipImage db groupId userId slip).1
        = Reply.confirmed a pb.bill_title ↔ |a - d| ≤ 0.05 * d)
    ∧ (0.05 * d < |a - d| →
        (handleSlipImage db groupId userId slip).1
          = Reply.mismatch a d pb.bill_title)
    ∧ |1.05 * d - d| ≤ 0.05 * d := by
  have herr' : strTruthy slip.error = false := by rw [herr]; rfl
  have ha' : (a == 0) = false := beq_eq_false_iff_ne.mpr ha
  have h := handleSlipImage_found db groupId userId slip pb a herr' hamt ha' hfind
  rw [hdue] at h
  have hbd : |1.05 * d - d| ≤ 0.05 * d := by
    rw [show (1.05 : ℚ) * d - d = 0.05 * d by ring,
        abs_of_nonneg (by positivity)]
  by_cases hc : |a - d| ≤ 0.05 * d
  · rw [if_neg (by rw [mul_comm]; exact not_lt.mpr hc)] at h
    have h1 : (handleSlipImage db groupId userId slip).1
        = Reply.confirmed a pb.bill_title := by rw [h]
    exact ⟨⟨fun _ => hc, fun _ => h1⟩, fun hgt => absurd hc (not_le.mpr hgt), hbd⟩
  · rw [if_pos (by rw [mul_comm]; exact not_le.mp hc)] at h
    have h1 : (handleSlipImage db groupId userId slip).1
        = Reply.mismatch a d pb.bill_title := by rw [h]
    exact ⟨⟨fun heq => absurd (h1.symm.trans heq) (by simp),
      fun hle => absurd hle hc⟩, fun _ => h1, hbd⟩

/-- Witness for C1 at the scenario of §8 of the spec: due 300, slip 295. -/
theorem C1_toleranceMatch_witness :
    ((handleSlipImage pendingDb "g" "u" slip295).1
        = Reply.confirmed 295 "dinner" ↔ |(295 : ℚ) - 300| ≤ 0.05 * 300)
    ∧ (0.05 * 300 < |(295 : ℚ) - 300| →
        (handleSlipImage pendingDb "g" "u" slip295).1
          = Reply.mismatch 295 300 "dinner")
    ∧ |(1.05 : ℚ) * 300 - 300| ≤ 0.05 * 300 :=
  C1_toleranceMatch pendingDb "g" "u" slip295 ⟨1, 300, "dinner", 1⟩ 295 300
    (by norm_num) rfl rfl (by norm_num) (by decide) rfl

/-- The fold behind ORDER BY DESC LIMIT 1 returns one of the candidate rows. -/
theorem maxRow_mem (r : PendingBill × Nat) (xs : List (PendingBill × Nat)) :
    maxRow r xs = r ∨ maxRow r xs ∈ xs := by
  induction xs generalizing r with
  | nil => exact Or.inl rfl
  | cons x xs ih =>
      simp only [maxRow]
      by_cases hc : x.2 > r.2
      · rw [if_pos hc]
        rcases ih x with h | h
        · exact Or.inr (by rw [h]; exact List.mem_cons_self x xs)
        · exact Or.inr (List.mem_cons_of_mem _ h)
      · rw [if_neg hc]
        rcases ih r with h | h
        · exact Or.inl h
        · exact Or.inr (List.mem_cons_of_mem _ h)

/-- The fold behind ORDER BY DESC LIMIT 1 returns a row of maximal
creation time. -/
theorem maxRow_le (r : PendingBill × Nat) (xs : List (PendingBill × Nat)) :
    r.2 ≤ (maxRow r xs).2 ∧ ∀ x ∈ xs, x.2 ≤ (maxRow r xs).2 := by
  induction xs generalizing r with
  | nil => exact ⟨Nat.le_refl _, by simp⟩
  | cons x xs ih =>
      simp only [maxRow]
      by_cases hc : x.2 > r.2
      · rw [if_pos hc]
        obtain ⟨h1, h2⟩ := ih x
        refine ⟨Nat.le_trans (Nat.le_of_lt hc) h1, fun y hy => ?_⟩
        rcases List.mem_cons.mp hy with rfl | hy
        · exact h1
        · exact h2 y hy
      · rw [if_neg hc]
        obtain ⟨h1, h2⟩ := ih r
        refine ⟨h1, fun y hy => ?_⟩
        rcases List.mem_cons.mp hy with rfl | hy
        · exact Nat.le_trans (Nat.le_of_not_lt hc) h1
        · exact h2 y hy

/-- Counterexample to C2: in `twoBillDb` the strictly most recent bill of
group g is bill 2, the payer's obligation in it is already paid, yet the
resolver returns the unpaid obligation of the older bill 1 instead of null. -/
theorem C2_resolver_counterexample :
    findPendingBillForUser twoBillDb "g" "u" = some ⟨1, 100, "old bill", 1⟩
    ∧ ((⟨2, "g", "new bill", 2⟩ : Bill) ∈ twoBillDb.bills
        ∧ ∀ b ∈ twoBillDb.bills, b.created_at ≤ 2)
    ∧ (∀ bp ∈ twoBillDb.participants, bp.bill_id = 2 → bp.paid = true) := by
  decide

/-- C2 as the code has it: the resolver returns null exactly when the payer
has no unpaid obligation row in any bill of the group, and otherwise returns
an unpaid obligation row of the payer whose bill has maximal creation time
among those candidate rows (which may belong to an older bill). -/
theorem C2_resolver_latestUnpaid (db : DB) (groupId userId : String) :
    (findPendingBillForUser db groupId userId = none
        ↔ pendingRows db groupId userId = [])
    ∧ ∀ pb, findPendingBillForUser db groupId userId = some pb →
        ∃ t, (pb, t) ∈ pendingRows db groupId userId
          ∧ ∀ r ∈ pendingRows db groupId userId, r.2 ≤ t := by
  unfold findPendingBillForUser
  cases hrows : pendingRows db groupId userId with
  | nil => exact ⟨by simp, by simp⟩
  | cons r rs =>
      refine ⟨by simp, fun pb hpb => ?_⟩
      simp only [Option.some.injEq] at hpb
      subst hpb
      refine ⟨(maxRow r rs).2, ?_, ?_⟩
      · show maxRow r rs ∈ r :: rs
        rcases maxRow_mem r rs with h | h
        · rw [h]; exact List.mem_cons_self r rs
        · exact List.mem_cons_of_mem _ h
      · intro x hx
        rcases List.mem_cons.mp hx with rfl | hx
        · exact (maxRow_le x rs).1
        · exact (maxRow_le r rs).2 x hx

/-- Counterexample to C3: in `twoBillDb` the payer's obligation in the
latest bill is already marked paid, yet a further slip submission of 100 is
answered with a fresh confirmation (for the older bill) and mutates the
persisted store — not an "already confirmed" outcome, and not a no-op. -/
theorem C3_alreadyPaid_counterexample :
    (handleSlipImage twoBillDb "g" "u" slip100).1 = Reply.confirmed 100 "old bill"
    ∧ (handleSlipImage twoBillDb "g" "u" slip100).2 ≠ twoBillDb := by
  have h := handleSlipImage_found twoBillDb "g" "u" slip100
    ⟨1, 100, "old bill", 1⟩ 100 rfl rfl (by decide) (by decide)
  rw [if_neg (by norm_num)] at h
  rw [h]
  exact ⟨rfl, by decide⟩

/-- C3 as the code has it: when the payer has no unpaid obligation row left
in the group (in particular when their only obligation is already paid), a
further slip submission with a readable nonzero amount leaves the persisted
store unchanged and is answered with the no-pending-bill rejection — not a
fresh confirmation, not an error. -/
theorem C3_alreadyPaid_noop (db : DB) (groupId userId : String)
    (slip : SlipInfo) (a : ℚ)
    (herr : slip.error = none) (hamt : slip.amount = some a) (ha : a ≠ 0)
    (hpaid : pendingRows db groupId userId = []) :
    handleSlipImage db groupId userId slip = (Reply.noPendingBill, db)
    ∧ replyText (handleSlipImage db groupId userId slip).1
        = "❌ No pending bill found for you in this group." := by
  have hfind : findPendingBillForUser db groupId userId = none := by
    unfold findPendingBillForUser; rw [hpaid]
  have h : handleSlipImage db groupId userId slip = (Reply.noPendingBill, db) := by
    unfold handleSlipImage
    rw [herr, hamt, hfind]
    simp only [beq_eq_false_iff_ne.mpr ha, Bool.false_eq_true, if_false]
    rfl
  exact ⟨h, by rw [h]; rfl⟩

/-- Witness for C3 (amended) on the store whose only obligation is paid. -/
theorem C3_alreadyPaid_noop_witness :
    handleSlipImage paidDb "g" "u" slip300 = (Reply.noPendingBill, paidDb)
    ∧ replyText (handleSlipImage paidDb "g" "u" slip300).1
        = "❌ No pending bill found for you in this group." :=
  C3_alreadyPaid_noop paidDb "g" "u" slip300 300 rfl rfl (by decide) (by decide)

/-- Counterexample to C9: an image event outside a group context (the
`!groupId` guard of handleImage) ends processing with no user-facing reply
at all, not exactly one. -/
theorem C9_reply_counterexample :
    (handleImage false false true paidDb "g" "u" slip300).1.length = 0 := by
  decide

/-- C9 as the code has it: every image event carrying a group identifier is
answered with exactly one user-facing reply, over all decode, QR,
extraction, resolution and reconciliation outcomes. -/
theorem C9_exactlyOneReply (imageDecodeFails qrFound : Bool) (db : DB)
    (groupId userId : String) (slip : SlipInfo) :
    (handleImage true imageDecodeFails qrFound db groupId userId slip).1.length = 1 := by
  unfold handleImage
  cases imageDecodeFails <;> cases qrFound <;> simp

/-- C10: an extracted amount of exactly 0 falls into the `!slipInfo.amount`
truthiness guard, so the pipeline replies "amount not detected" and stops
with the store untouched, exactly as for an absent amount. -/
theorem C10_zeroAmount (db : DB) (groupId userId : String) (slip : SlipInfo)
    (herr : slip.error = none) (hamt : slip.amount = some 0) :
    handleSlipImage db groupId userId slip = (Reply.amountMissing, db)
    ∧ handleSlipImage db groupId userId { slip with amount := none }
        = (Reply.amountMissing, db) := by
  constructor
  · unfold handleSlipImage
    rw [herr, hamt]
    rfl
  · unfold handleSlipImage
    show (if strTruthy slip.error then _ else _) = _
    rw [herr]
    rfl

/-- Witness for C10: the zero-amount slip on a store with a pending bill. -/
theorem C10_zeroAmount_witness :
    handleSlipImage pendingDb "g" "u" slip0 = (Reply.amountMissing, pendingDb)
    ∧ handleSlipImage pendingDb "g" "u" { slip0 with amount := none }
        = (Reply.amountMissing, pendingDb) :=
  C10_zeroAmount pendingDb "g" "u" slip0 rfl rfl

/-- On any parsed JSON value other than null, the extractor resolves the
coerced data record with a clear error channel. -/
theorem parseSlipImage_of_ne_null (v : JsonVal) (m : String)
    (hv : v ≠ JsonVal.null) :
    parseSlipImage (some v) m =
      { bank_name := coerceField (jsGet v "bank_name"),
        amount := coerceAmount (jsGet v "amount"),
        transaction_date := coerceField (jsGet v "transaction_date"),
        transaction_time := coerceField (jsGet v "transaction_time"),
        sender := coerceField (jsGet v "sender"),
        receiver := coerceField (jsGet v "receiver"),
        reference_id := coerceField (jsGet v "reference_id"),
        channel := coerceField (jsGet v "channel"),
        error := none } := by
  cases v with
  | null => exact absurd rfl hv
  | bool b => rfl
  | num q => rfl
  | str s => rfl
  | arr xs => rfl
  | obj kvs => rfl

/-- C5: when the backend output parses but its amount property is absent or
non-numeric, the extractor coerces the amount to null while still returning
the data record (error stays null), and the pipeline stops with the
"amount not detected" reply and an unchanged store, before any obligation
resolution or settlement write. -/
theorem C5_amountCoercedToNull (v : JsonVal) (m : String) (db : DB)
    (groupId userId : String)
    (hv : v ≠ JsonVal.null)
    (hnn : amountFieldNonNumeric v = true) :
    (parseSlipImage (some v) m).amount = none
    ∧ (parseSlipImage (some v) m).error = none
    ∧ handleSlipImage db groupId userId (parseSlipImage (some v) m)
        = (Reply.amountMissing, db) := by
  have hp := parseSlipImage_of_ne_null v m hv
  have hamt : (parseSlipImage (some v) m).amount = none := by
    rw [hp]
    show coerceAmount (jsGet v "amount") = none
    unfold amountFieldNonNumeric at hnn
    unfold coerceAmount
    cases hg : jsGet v "amount" with
    | none => rfl
    | some w =>
        cases w with
        | num q => rw [hg] at hnn; exact absurd hnn (by simp)
        | null => rfl
        | bool b => rfl
        | str s => rfl
        | arr xs => rfl
        | obj kvs => rfl
  have herr : (parseSlipImage (some v) m).error = none := by rw [hp]
  refine ⟨hamt, herr, ?_⟩
  unfold handleSlipImage
  rw [herr, hamt]
  rfl

/-- Witness for C5: a parsed output carrying a textual amount. -/
theorem C5_amountCoercedToNull_witness :
    (parseSlipImage (some textAmountJson) "m").amount = none
    ∧ (parseSlipImage (some textAmountJson) "m").error = none
    ∧ handleSlipImage pendingDb "g" "u" (parseSlipImage (some textAmountJson) "m")
        = (Reply.amountMissing, pendingDb) :=
  C5_amountCoercedToNull textAmountJson "m" pendingDb "g" "u"
    (fun h => JsonVal.noConfusion h) rfl

/-- Counterexample to C6: an output parseable as JSON but nowhere near the
eight-key shape is not rejected — the extractor resolves a data record with
a null error channel and every field silently defaulted to null. -/
theorem C6_shape_counterexample :
    specExactEightKeyShape wrongShapeJson = false
    ∧ (parseSlipImage (some wrongShapeJson) "boom").error = none
    ∧ (parseSlipImage (some wrongShapeJson) "boom").amount = none
    ∧ (parseSlipImage (some wrongShapeJson) "boom").bank_name = none
    ∧ (parseSlipImage (some wrongShapeJson) "boom").reference_id = none :=
  ⟨rfl, rfl, rfl, rfl, rfl⟩

/-- C6 as the code has it: after stripping markdown code fences, the
extractor returns the error variant exactly when `JSON.parse` throws or the
parse yields JSON null (whose property accesses throw); every other
JSON-parseable output is accepted as a data record whatever its shape, with
non-conforming fields coerced to null.  The fence stripping itself reduces a
fenced empty object to the bare object text. -/
theorem C6_errorIffUnparseable (r : Option JsonVal) (m : String) :
    ((parseSlipImage r m).error.isSome ↔ r = none ∨ r = some JsonVal.null)
    ∧ cleanedText fencedEmptyObj = String.mk ['\x7b', '\x7d'] := by
  refine ⟨?_, by decide⟩
  cases r with
  | none => simp [parseSlipImage, errRecord]
  | some v => cases v <;> simp [parseSlipImage, errRecord]

/-- Reflexivity of the row-preservation relation. -/
theorem paidStable_id (db : DB) : paidStable db db :=
  fun bp hbp => ⟨bp, hbp, rfl, rfl, rfl, rfl, fun hp => hp⟩

/-- `markAsPaid` keeps every row, its identity and amount, and never turns
paid off. -/
theorem paidStable_markAsPaid (db : DB) (pid : Nat) :
    paidStable db (markAsPaid db pid) := by
  intro bp hbp
  refine ⟨if bp.id == pid then { bp with paid := true } else bp,
    List.mem_map_of_mem _ hbp, ?_, ?_, ?_, ?_, ?_⟩
  · split <;> rfl
  · split <;> rfl
  · split <;> rfl
  · split <;> rfl
  · intro hp
    split
    · rfl
    · exact hp

/-- Appending fresh rows keeps every existing row untouched. -/
theorem paidStable_append (db : DB) (bs : List Bill)
    (rows : List BillParticipant) :
    paidStable db { db with bills := db.bills ++ bs,
                            participants := db.participants ++ rows } :=
  fun bp hbp => ⟨bp, List.mem_append_left _ hbp, rfl, rfl, rfl, rfl, fun hp => hp⟩

/-- The slip handler either leaves the store alone or performs one
`markAsPaid`. -/
theorem handleSlipImage_store (db : DB) (groupId userId : String)
    (slip : SlipInfo) :
    (handleSlipImage db groupId userId slip).2 = db
    ∨ ∃ pid, (handleSlipImage db groupId userId slip).2 = markAsPaid db pid := by
  unfold handleSlipImage
  dsimp only
  split
  · exact Or.inl rfl
  split
  · exact Or.inl rfl
  split
  · exact Or.inl rfl
  split
  · exact Or.inl rfl
  split
  · exact Or.inl rfl
  · exact Or.inr ⟨_, rfl⟩

/-- The orchestrator either leaves the store alone or hands it to the slip
handler. -/
theorem handleImage_store (hasGroupId imageDecodeFails qrFound : Bool)
    (db : DB) (groupId userId : String) (slip : SlipInfo) :
    (handleImage hasGroupId imageDecodeFails qrFound db groupId userId slip).2 = db
    ∨ (handleImage hasGroupId imageDecodeFails qrFound db groupId userId slip).2
        = (handleSlipImage db groupId userId slip).2 := by
  cases hasGroupId <;> cases imageDecodeFails <;> cases qrFound <;>
    simp [handleImage]

/-- C4: every operation reachable from the pipeline preserves every
obligation row with its identity, bill, payer and due amount; a row is never
deleted, and a paid row never reverts to unpaid. -/
theorem C4_paidFlagStable (db : DB) (st : Step) :
    paidStable db (applyStep db st) := by
  cases st with
  | mark pid => exact paidStable_markAsPaid db pid
  | insertBill b rows => exact paidStable_append db [b] rows
  | image hg df qf g u s =>
      show paidStable db (handleImage hg df qf db g u s).2
      rcases handleImage_store hg df qf db g u s with h | h
      · rw [h]; exact paidStable_id db
      · rw [h]
        rcases handleSlipImage_store db g u s with h2 | ⟨pid, h2⟩
        · rw [h2]; exact paidStable_id db
        · rw [h2]; exact paidStable_markAsPaid db pid

/-- Witness for C4 at a concrete store and the marking step. -/
theorem C4_paidFlagStable_witness :
    paidStable twoBillDb (applyStep twoBillDb (Step.mark 1)) :=
  C4_paidFlagStable twoBillDb (Step.mark 1)

/-- The bill endpoint either answers without touching the store, or commits
the one success state and answers ok. -/
theorem createBill_cases (db : ApiDB) (req : BillReq) (billInsertFails : Bool)
    (participantInsertFails : Nat → Bool) :
    (createBill db req billInsertFails participantInsertFails
        = (.ok (nextBillId db) req.memberIds.length (perPersonAmount req),
           billWithParticipants db req)
      ∧ req.memberIds.isEmpty = false
      ∧ ¬ req.amount ≤ 0
      ∧ ((req.payType == "equal") = true ∨ (req.payType == "each") = true))
    ∨ ((createBill db req billInsertFails participantInsertFails).2 = db
      ∧ ∀ billId n per,
          (createBill db req billInsertFails participantInsertFails).1
            ≠ .ok billId n per) := by
  unfold createBill
  dsimp only
  split
  · exact Or.inr ⟨rfl, by intro _ _ _ h; cases h⟩
  split
  · exact Or.inr ⟨rfl, by intro _ _ _ h; cases h⟩
  split
  · exact Or.inr ⟨rfl, by intro _ _ _ h; cases h⟩
  split
  · exact Or.inr ⟨rfl, by intro _ _ _ h; cases h⟩
  split
  · exact Or.inr ⟨rfl, by intro _ _ _ h; cases h⟩
  split
  · exact Or.inr ⟨rfl, by intro _ _ _ h; cases h⟩
  split
  · exact Or.inr ⟨rfl, by intro _ _ _ h; cases h⟩
  · rename_i hfields hempty hneg hpay _ _ _
    refine Or.inl ⟨rfl, ?_, hneg, ?_⟩
    · cases hb : req.memberIds.isEmpty with
      | false => rfl
      | true => exact absurd hb hempty
    · cases hxy : (req.payType == "equal" || req.payType == "each") with
      | true =>
          cases he : (req.payType == "equal") with
          | true => exact Or.inl rfl
          | false =>
              cases hh : (req.payType == "each") with
              | true => exact Or.inr rfl
              | false => rw [he, hh] at hxy; cases hxy
      | false => exact absurd (by rw [hxy]; rfl) hpay

/-- C8: bill creation is all-or-nothing — every request either leaves the
store exactly as it was (any validation failure, member-check failure, or
insert error rolls the transaction back) or commits the bill row together
with all participant rows in one step. -/
theorem C8_allOrNothing (db : ApiDB) (req : BillReq) (billInsertFails : Bool)
    (participantInsertFails : Nat → Bool) :
    (createBill db req billInsertFails participantInsertFails).2 = db
    ∨ ((createBill db req billInsertFails participantInsertFails).2
          = billWithParticipants db req
        ∧ (createBill db req billInsertFails participantInsertFails).1
          = .ok (nextBillId db) req.memberIds.length (perPersonAmount req)) := by
  rcases createBill_cases db req billInsertFails participantInsertFails with
    ⟨heq, -, -, -⟩ | ⟨hdb, -⟩
  · exact Or.inr ⟨by rw [heq], by rw [heq]⟩
  · exact Or.inl hdb

/-- C7: a successful creation with n selected members fans out exactly n
obligation rows, one per selected member, all carrying the one per-person
amount: total/n under the equal split and the stated total under each. -/
theorem C7_fanout (db : ApiDB) (req : BillReq) (billInsertFails : Bool)
    (participantInsertFails : Nat → Bool) (billId n : Nat) (per : ℚ)
    (h : (createBill db req billInsertFails participantInsertFails).1
          = .ok billId n per) :
    n = req.memberIds.length
    ∧ 1 ≤ req.memberIds.length
    ∧ 0 < req.amount
    ∧ (createBill db req billInsertFails participantInsertFails).2.participants
        = db.participants
            ++ req.memberIds.map (fun uid => ⟨billId, uid, per⟩)
    ∧ (req.payType = "equal" → per = req.amount / (req.memberIds.length : ℚ))
    ∧ (req.payType = "each" → per = req.amount) := by
  rcases createBill_cases db req billInsertFails participantInsertFails with
    ⟨heq, hempty, hpos, -⟩ | ⟨-, hno⟩
  · rw [heq] at h
    simp only [BillResp.ok.injEq] at h
    obtain ⟨hid, hn, hper⟩ := h
    subst hid; subst hn; subst hper
    refine ⟨rfl, ?_, not_le.mp hpos, ?_, ?_, ?_⟩
    · rcases List.isEmpty_eq_false_iff_exists_mem.mp hempty with ⟨x, hx⟩
      exact List.length_pos.mpr (List.ne_nil_of_mem hx)
    · rw [heq]; rfl
    · intro hp
      unfold perPersonAmount
      rw [if_pos (by rw [hp]; decide)]
    · intro hp
      unfold perPersonAmount
      rw [if_neg (by rw [hp]; decide)]
  · exact absurd h (hno billId n per)

/-- Witness for C7: the equal split of 100 over two members yields two rows
of 50 each. -/
theorem C7_fanout_witness :
    (2 = reqEqual.memberIds.length
      ∧ 1 ≤ reqEqual.memberIds.length
      ∧ 0 < reqEqual.amount
      ∧ (createBill apiDb reqEqual false (fun _ => false)).2.participants
          = apiDb.participants
              ++ reqEqual.memberIds.map
                  (fun uid => ⟨nextBillId apiDb, uid, perPersonAmount reqEqual⟩)
      ∧ (reqEqual.payType = "equal" →
          perPersonAmount reqEqual
            = reqEqual.amount / (reqEqual.memberIds.length : ℚ))
      ∧ (reqEqual.payType = "each" → perPersonAmount reqEqual = reqEqual.amount))
    ∧ perPersonAmount reqEqual = 50 :=
  ⟨C7_fanout apiDb reqEqual false (fun _ => false)
      (nextBillId apiDb) 2 (perPersonAmount reqEqual) rfl,
   by norm_num [perPersonAmount, reqEqual]⟩

end PayTrack
